import Mathlib

/-!
Shallow embedding of `src/gym_loop/agents/pytorch_rainbow_dqn.py`
(class `PytorchRainbowDqn`), the Rainbow DQN agent controller.

Real-valued tensors are modelled over `ℚ`; a batch column of shape
`(batch,)` is a function `ℕ → ℚ`, a `(batch, atom)` tensor is
`ℕ → ℕ → ℚ`, and so on.  Network outputs (the policy's `act` q-values and
`distribution` atoms) are external collaborators and enter the embedding
as inputs; every arithmetic step performed by the agent's own code is
embedded faithfully, including PyTorch broadcasting semantics where the
shapes force it.
-/

namespace RainbowDqn

/-- Construction parameters of the agent (`__init__` / `get_default_parameters`). -/
structure AgentConfig where
  memorySize : ℕ
  batchSize : ℕ
  gamma : ℚ
  tau : ℚ
  bufferAlpha : ℚ
  bufferBetaMin : ℚ
  bufferBetaMax : ℚ
  bufferBetaDecay : ℚ
  priorEps : ℚ
  atomSize : ℕ
  nStep : ℕ
  vMin : ℚ
  vMax : ℚ

/-- `delta_z = float(self.v_max - self.v_min) / (self.atom_size - 1)`
(source line 171). -/
def deltaZ (cfg : AgentConfig) : ℚ :=
  (cfg.vMax - cfg.vMin) / ((cfg.atomSize : ℚ) - 1)

/-- Atom `j` of `self.support = torch.linspace(self.v_min, self.v_max,
self.atom_size)` (source line 42): `v_min + j * (v_max - v_min) / (atom_size - 1)`. -/
def supportAt (cfg : AgentConfig) (j : ℕ) : ℚ :=
  cfg.vMin + (j : ℚ) * deltaZ cfg

/-- Pointwise `Tensor.clamp(min=lo, max=hi)`. -/
def clampQ (lo hi x : ℚ) : ℚ := min hi (max lo x)

/-- `t_z = (reward + (1 - done) * gamma * self.support).clamp(min=v_min, max=v_max)`
for sample `i` and atom `j` (source lines 179-180).  `rews` and `dones` are the
batch columns `samples["rews"]` and `samples["done"]`. -/
def tzAt (cfg : AgentConfig) (gamma : ℚ) (rews dones : ℕ → ℚ) (i j : ℕ) : ℚ :=
  clampQ cfg.vMin cfg.vMax (rews i + (1 - dones i) * gamma * supportAt cfg j)

/-- `b = (t_z - v_min) / delta_z` (source line 181). -/
def bAt (cfg : AgentConfig) (gamma : ℚ) (rews dones : ℕ → ℚ) (i j : ℕ) : ℚ :=
  (tzAt cfg gamma rews dones i j - cfg.vMin) / deltaZ cfg

/-- `l = b.floor().long()` (source line 182). -/
def lAt (cfg : AgentConfig) (gamma : ℚ) (rews dones : ℕ → ℚ) (i j : ℕ) : ℤ :=
  ⌊bAt cfg gamma rews dones i j⌋

/-- `u = b.ceil().long()` (source line 183). -/
def uAt (cfg : AgentConfig) (gamma : ℚ) (rews dones : ℕ → ℚ) (i j : ℕ) : ℤ :=
  ⌈bAt cfg gamma rews dones i j⌉

/-- Entry `k` of the flat buffer `proj_dist.view(-1)` after the two
`index_add_` calls (source lines 195-201): each sample `i` adds, for each atom
`j`, mass `next_dist[i][j] * (u - b)` at flat index `l + i * atom_size` and
mass `next_dist[i][j] * (b - l)` at flat index `u + i * atom_size`
(`offset` row `i` is `i * atom_size`, source lines 185-193).
`nextDist i j` is `next_dist[i][j]`, the target network's distribution at the
double-DQN-selected action. -/
def projFlat (cfg : AgentConfig) (gamma : ℚ) (rews dones : ℕ → ℚ)
    (nextDist : ℕ → ℕ → ℚ) (k : ℤ) : ℚ :=
  ∑ i ∈ Finset.range cfg.batchSize, ∑ j ∈ Finset.range cfg.atomSize,
    ((if lAt cfg gamma rews dones i j + (i : ℤ) * (cfg.atomSize : ℤ) = k
        then nextDist i j * ((uAt cfg gamma rews dones i j : ℚ) - bAt cfg gamma rews dones i j)
        else 0)
      + (if uAt cfg gamma rews dones i j + (i : ℤ) * (cfg.atomSize : ℤ) = k
        then nextDist i j * (bAt cfg gamma rews dones i j - (lAt cfg gamma rews dones i j : ℚ))
        else 0))

/-- `proj_dist[i][a]` after viewing the flat buffer back as `(batch, atom_size)`. -/
def projDist (cfg : AgentConfig) (gamma : ℚ) (rews dones : ℕ → ℚ)
    (nextDist : ℕ → ℕ → ℚ) (i a : ℕ) : ℚ :=
  projFlat cfg gamma rews dones nextDist ((i * cfg.atomSize + a : ℕ) : ℤ)

/-! ### Scenario from the spec (claims C1 and C2)

`atom_size = 3`, `v_min = 0`, `v_max = 2` (support `[0, 1, 2]`, `delta_z = 1`),
one sample with `reward = 1`, `done = 0`, `gamma = 1`, and the next-state
distribution putting mass 1 at atom index 1. -/

/-- Scenario configuration for the projection tie-break scenario. -/
def cfgTie : AgentConfig :=
  { memorySize := 2000, batchSize := 1, gamma := 1, tau := 1/100,
    bufferAlpha := 3/5, bufferBetaMin := 1/10, bufferBetaMax := 9/10,
    bufferBetaDecay := 1/2000, priorEps := 1/1000000, atomSize := 3,
    nStep := 3, vMin := 0, vMax := 2 }

/-- Scenario reward column: every sample has reward 1. -/
def rewsTie : ℕ → ℚ := fun _ => 1

/-- Scenario done column: every sample has done 0. -/
def donesTie : ℕ → ℚ := fun _ => 0

/-- Scenario next-state distribution: mass 1 at atom index 1, 0 elsewhere. -/
def nextDistTie : ℕ → ℕ → ℚ := fun _ j => if j = 1 then 1 else 0

/-! ### Double-DQN action selection and the elementwise loss -/

/-- `Tensor.argmax` over a row of `n` action values: index of the first
occurrence of the maximum (source line 175, `self.dqn(next_state)["q_values"].argmax(1)`). -/
def argmaxIdx (n : ℕ) (f : ℕ → ℚ) : ℕ :=
  (List.range n).foldl (fun best j => if f best < f j then j else best) 0

/-- One sampled batch as consumed by `_compute_dqn_loss` (source lines 157-177).
Network evaluations are external collaborators and appear as inputs:
`obsQ i a` is `self.dqn(next_state)["q_values"][i][a]`,
`nextDistAll i a j` is `self.dqn_target.distribution(next_state)[i][a][j]`,
`dist i a j` is `self.dqn.distribution(state)[i][a][j]`; `acts`, `rews`,
`dones` are the columns `samples["acts"]`, `samples["rews"]`, `samples["done"]`. -/
structure Batch where
  obsQ : ℕ → ℕ → ℚ
  nextDistAll : ℕ → ℕ → ℕ → ℚ
  dist : ℕ → ℕ → ℕ → ℚ
  acts : ℕ → ℕ
  rews : ℕ → ℚ
  dones : ℕ → ℚ
  numActions : ℕ

/-- `next_dist = next_dist[range(batch_size), next_action]` where
`next_action = self.dqn(next_state)["q_values"].argmax(1)` (source lines 175-177):
the target network's distribution at the double-DQN-selected action. -/
def nextDistSel (b : Batch) (i j : ℕ) : ℚ :=
  b.nextDistAll i (argmaxIdx b.numActions (b.obsQ i)) j

/-- Elementwise categorical loss of `_compute_dqn_loss` for sample `i`
(source lines 203-205): `-(proj_dist * log_p).sum(1)` with
`log_p = torch.log(dist[range(batch_size), action])`.  `log` models the real
function `torch.log` applied to the online network's output. -/
def compute_dqn_loss (cfg : AgentConfig) (log : ℚ → ℚ) (gamma : ℚ)
    (b : Batch) (i : ℕ) : ℚ :=
  -(∑ a ∈ Finset.range cfg.atomSize,
      projDist cfg gamma b.rews b.dones (nextDistSel b) i a
        * log (b.dist i (b.acts i) a))

/-! ### `update_model` (source lines 107-137) -/

/-- The external data consumed by one `update_model` call: the batch returned
by `self.memory.sample_batch(self.beta)` (with its importance weights and
buffer indices), the batch returned by
`self.memory_n.sample_batch_from_idxs(indices)` at the same indices, the model
of `torch.log`, and the net effect of `zero_grad`/`backward`/`clip`/
`optimizer.step()` on the online parameters. -/
structure UpdateEnv where
  batch1 : Batch
  weights : ℕ → ℚ
  indices : List ℕ
  batch2 : Batch
  log : ℚ → ℚ
  gradStep : List ℚ → List ℚ

/-- `elementwise_loss` after `elementwise_loss += n_loss` (source lines
112-117): the 1-step loss at discount `gamma` plus the n-step loss at
discount `gamma ** n_step`. -/
def elementwiseTotal (cfg : AgentConfig) (env : UpdateEnv) (i : ℕ) : ℚ :=
  compute_dqn_loss cfg env.log cfg.gamma env.batch1 i
    + compute_dqn_loss cfg env.log (cfg.gamma ^ cfg.nStep) env.batch2 i

/-- `loss = torch.mean(elementwise_loss * weights)` (source line 119).
`elementwise_loss` has shape `(batch,)` while `weights` is reshaped to
`(batch, 1)` (source line 110), so PyTorch broadcasting produces the
`(batch, batch)` outer product with entry `(i, j)` equal to
`weights[i] * elementwise_loss[j]`, and the mean averages all
`batch * batch` entries. -/
def updateModelLoss (cfg : AgentConfig) (env : UpdateEnv) : ℚ :=
  (∑ i ∈ Finset.range cfg.batchSize, ∑ j ∈ Finset.range cfg.batchSize,
      elementwiseTotal cfg env j * env.weights i)
    / ((cfg.batchSize : ℚ) * (cfg.batchSize : ℚ))

/-- Mutable state of the agent relevant to the claims: `self.beta`,
`len(self.memory)`, the priorities stored in `self.memory`, the parameter
tensors of `self.dqn` and `self.dqn_target` (flattened to a list of scalars),
the accumulators `self.loss_per_batch` and `self.episode_step`, and counters
of how many times `reset_noise()` has been invoked on each network. -/
structure AgentState where
  beta : ℚ
  memLen : ℕ
  priorities : List ℚ
  onlineParams : List ℚ
  targetParams : List ℚ
  lossPerBatch : ℚ
  episodeStep : ℕ
  onlineNoiseResets : ℕ
  targetNoiseResets : ℕ

/-- Modelled from the spec: `self.memory.update_priorities(indices, vals)`
of the Prioritized Replay Store, whose implementation is not under `src/`;
per the collaborator contract it overwrites the stored priority at each given
index with the corresponding new value, sequentially. -/
def updatePriorities (prios : List ℚ) (indices : List ℕ) (vals : ℕ → ℚ) :
    List ℚ :=
  match indices with
  | [] => prios
  | idx :: rest => updatePriorities (prios.set idx (vals 0)) rest (fun k => vals (k + 1))

/-- `update_model` (source lines 107-137) as a state transition: accumulates
the scalar loss into `loss_per_batch`, increments `episode_step`, applies the
optimizer step to the online parameters, and writes
`new_priorities = elementwise_loss + self.prior_eps` back at the sampled
indices (source lines 132-135). -/
def update_model (cfg : AgentConfig) (env : UpdateEnv) (s : AgentState) :
    AgentState :=
  { s with
    lossPerBatch := s.lossPerBatch + updateModelLoss cfg env
    episodeStep := s.episodeStep + 1
    onlineParams := env.gradStep s.onlineParams
    priorities := updatePriorities s.priorities env.indices
      (fun k => elementwiseTotal cfg env k + cfg.priorEps) }

/-- `_target_update` (source lines 209-211): for each pair in
`zip(self.dqn.parameters(), self.dqn_target.parameters())`,
`w_target.data = w_target.data * (1 - tau) + w.data * tau`; target parameters
beyond the zipped length are untouched. -/
def target_update (tau : ℚ) (online target : List ℚ) : List ℚ :=
  (target.zip online).map (fun p => p.1 * (1 - tau) + p.2 * tau)
    ++ target.drop online.length

/-- `update` (source lines 93-105): gated on
`len(self.memory) >= self.batch_size`; then one `update_model`, the beta
step `beta = max(buffer_beta_min, beta - (buffer_beta_max - buffer_beta_min)
* buffer_beta_decay)`, one `_target_update`, and `reset_noise()` on both
networks.  Otherwise nothing happens. -/
def update (cfg : AgentConfig) (env : UpdateEnv) (s : AgentState) :
    AgentState :=
  if cfg.batchSize ≤ s.memLen then
    let s1 := update_model cfg env s
    let s2 := { s1 with
      beta := max cfg.bufferBetaMin
        (s1.beta - (cfg.bufferBetaMax - cfg.bufferBetaMin) * cfg.bufferBetaDecay) }
    let s3 := { s2 with
      targetParams := target_update cfg.tau s2.onlineParams s2.targetParams }
    { s3 with
      onlineNoiseResets := s3.onlineNoiseResets + 1
      targetNoiseResets := s3.targetNoiseResets + 1 }
  else s

/-- A sequence of `update` calls, each with its own sampled data. -/
def updateSeq (cfg : AgentConfig) (envs : List UpdateEnv) (s : AgentState) :
    AgentState :=
  match envs with
  | [] => s
  | env :: rest => updateSeq cfg rest (update cfg env s)

/-! ### Construction (`__init__`, source lines 17-73) -/

/-- The injected policy as seen by `__init__`: whether it has a
`distribution` attribute (source line 58), and its parameter tensors. -/
structure PolicySpec where
  hasDistribution : Bool
  initialParams : List ℚ

/-- `__init__` (source lines 17-73): raises
`NotImplementedError` when the policy lacks `distribution`; otherwise the
agent starts with `beta = buffer_beta_min` (line 38), empty buffers, target
parameters loaded from the online network
(`self.dqn_target.load_state_dict(self.dqn.state_dict())`, line 65), and
zeroed accumulators (lines 70-71). -/
def initAgent (cfg : AgentConfig) (policy : PolicySpec) :
    Except String AgentState :=
  if policy.hasDistribution then
    Except.ok
      { beta := cfg.bufferBetaMin
        memLen := 0
        priorities := []
        onlineParams := policy.initialParams
        targetParams := policy.initialParams
        lossPerBatch := 0
        episodeStep := 0
        onlineNoiseResets := 0
        targetNoiseResets := 0 }
  else
    Except.error "Policy does not have distribution(state) -> atoms method"

/-! ### `metrics` (source lines 139-155) -/

/-- One named parameter tensor of `self.dqn.named_parameters()`: its name,
its flattened values, and its gradient (`none` models `p.grad is None`). -/
structure ParamInfo where
  pname : String
  values : List ℚ
  grad : Option (List ℚ)

/-- `torch.mean` of a flattened tensor. -/
def listMean (xs : List ℚ) : ℚ := xs.sum / (xs.length : ℚ)

/-- The `std` value of source line 152:
`torch.std(p) ... if p.squeeze().dim() != 0 else 0`; a tensor squeezes to
dimension 0 exactly when it has a single element.  `stdFn` models the real
function `torch.std` (an irrational square root in general). -/
def stdEntry (stdFn : List ℚ → ℚ) (p : ParamInfo) : ℚ :=
  if p.values.length = 1 then 0 else stdFn p.values

/-- The `grads` dictionary built by source lines 148-154, as an ordered
association list: for each named parameter with `p.grad is not None`, the
entries `name + "_std"` and `name + "_mean"`, both computed from the
parameter tensor `p` itself (`torch.std(p)`, `torch.mean(p)`), not from its
gradient. -/
def metricsGrads (stdFn : List ℚ → ℚ) : List ParamInfo → List (String × ℚ)
  | [] => []
  | p :: rest =>
    (if p.grad.isSome then
      [(p.pname ++ "_std", stdEntry stdFn p), (p.pname ++ "_mean", listMean p.values)]
    else []) ++ metricsGrads stdFn rest

/-- `metrics(episode_num)` (source lines 139-155): the body runs only when
`episode_num % 10` is truthy, i.e. not divisible by 10; it then returns the
dictionary `{"loss_per_batch": mean_loss, **grads}` and zeroes the two
accumulators; on episodes divisible by 10 it returns `None` (modelled as
`none`) and leaves the state untouched. -/
def metrics (stdFn : List ℚ → ℚ) (params : List ParamInfo) (s : AgentState)
    (episodeNum : ℕ) : Option (ℚ × List (String × ℚ)) × AgentState :=
  if episodeNum % 10 ≠ 0 then
    let lossPerBatchMean :=
      if s.episodeStep ≠ 0 then s.lossPerBatch / (s.episodeStep : ℚ) else 0
    (some (lossPerBatchMean, metricsGrads stdFn params),
      { s with lossPerBatch := 0, episodeStep := 0 })
  else (none, s)

/-! ### Shared concrete inputs for witnesses -/

/-- A batch whose network outputs are all zero. -/
def batch0 : Batch :=
  { obsQ := fun _ _ => 0, nextDistAll := fun _ _ _ => 0, dist := fun _ _ _ => 0,
    acts := fun _ => 0, rews := fun _ => 0, dones := fun _ => 0, numActions := 1 }

/-- A sampled environment with zero losses (its `log` model is constantly 0). -/
def env0 : UpdateEnv :=
  { batch1 := batch0, weights := fun _ => 1, indices := [0], batch2 := batch0,
    log := fun _ => 0, gradStep := fun ps => ps }

/-- An agent state with an empty replay store. -/
def stateEmpty : AgentState :=
  { beta := 1/10, memLen := 0, priorities := [], onlineParams := [],
    targetParams := [], lossPerBatch := 0, episodeStep := 0,
    onlineNoiseResets := 0, targetNoiseResets := 0 }

/-- An agent state whose replay store holds one transition. -/
def stateFull : AgentState :=
  { beta := 1/10, memLen := 1, priorities := [5], onlineParams := [1, 2],
    targetParams := [3, 4], lossPerBatch := 0, episodeStep := 0,
    onlineNoiseResets := 0, targetNoiseResets := 0 }

/-- A policy lacking the `distribution` capability. -/
def policyNoDist : PolicySpec := { hasDistribution := false, initialParams := [] }

/-- A policy with the `distribution` capability. -/
def policyDist : PolicySpec := { hasDistribution := true, initialParams := [1, 2] }

/-- The state `initAgent cfgTie policyDist` produces. -/
def stateInit : AgentState :=
  { beta := cfgTie.bufferBetaMin, memLen := 0, priorities := [],
    onlineParams := [1, 2], targetParams := [1, 2], lossPerBatch := 0,
    episodeStep := 0, onlineNoiseResets := 0, targetNoiseResets := 0 }

/-! ### Claims -/

/-- Claim C1 (code evaluated at the failing input): in the spec scenario
(`atom_size = 3`, `v_min = 0`, `v_max = 2`, `reward = 1`, `done = 0`,
`gamma = 1`, next-state distribution with mass 1 at atom index 1) the
fractional position of the occupied atom is exactly `b = 2`, so `l = u = 2`;
the claim says the full mass 1 lands at atom index 2, but the code adds
`next_dist * (u - b) = 0` and `next_dist * (b - l) = 0` there, so the
projected distribution is 0 at index 2 (and at every other index). -/
theorem c1_projection_tie_mass_lost :
    bAt cfgTie 1 rewsTie donesTie 0 1 = 2 ∧
    lAt cfgTie 1 rewsTie donesTie 0 1 = 2 ∧
    uAt cfgTie 1 rewsTie donesTie 0 1 = 2 ∧
    projDist cfgTie 1 rewsTie donesTie nextDistTie 0 0 = 0 ∧
    projDist cfgTie 1 rewsTie donesTie nextDistTie 0 1 = 0 ∧
    projDist cfgTie 1 rewsTie donesTie nextDistTie 0 2 = 0 := by
  refine ⟨?_, ?_, ?_, ?_, ?_, ?_⟩ <;>
    · simp only [projDist, projFlat, lAt, uAt, bAt, tzAt, clampQ, supportAt,
        deltaZ, cfgTie, rewsTie, donesTie, nextDistTie, Finset.sum_range_succ,
        Finset.sum_range_zero]
      norm_num

/-- Claim C2 (code evaluated at the failing input): in the same scenario the
original target distribution has total mass 1, but the projected target
distribution after the floor/ceil projection step has total mass 0, because
the whole mass sits at a grid point where `l = u` and both interpolation
weights vanish. -/
theorem c2_projected_mass_not_conserved :
    (∑ j ∈ Finset.range 3, nextDistTie 0 j) = 1 ∧
    (∑ a ∈ Finset.range 3, projDist cfgTie 1 rewsTie donesTie nextDistTie 0 a) = 0 := by
  constructor
  · simp [nextDistTie, Finset.sum_range_succ]
  · simp only [projDist, projFlat, lAt, uAt, bAt, tzAt, clampQ, supportAt,
      deltaZ, cfgTie, rewsTie, donesTie, nextDistTie, Finset.sum_range_succ,
      Finset.sum_range_zero]
    norm_num

/-- Claim C9: constructing the agent with an injected policy that does not
expose a `distribution(state)` capability fails at construction time with the
`NotImplementedError` message, and no agent state is produced. -/
theorem c9_init_requires_distribution (cfg : AgentConfig) (policy : PolicySpec)
    (h : policy.hasDistribution = false) :
    initAgent cfg policy =
      Except.error "Policy does not have distribution(state) -> atoms method" := by
  simp [initAgent, h]

/-- Witness for C9 at a concrete configuration and capability-less policy. -/
theorem c9_init_requires_distribution_witness :
    policyNoDist.hasDistribution = false ∧
      initAgent cfgTie policyNoDist =
        Except.error "Policy does not have distribution(state) -> atoms method" :=
  ⟨rfl, c9_init_requires_distribution cfgTie policyNoDist rfl⟩

/-- Claim C5: whenever the prioritized replay store holds fewer than
`batch_size` transitions, `update()` is a no-op: the resulting agent state —
loss accumulators, online and target parameters, beta, noise-reset counters,
priorities — is identical to the input state. -/
theorem c5_update_noop_when_buffer_small (cfg : AgentConfig) (env : UpdateEnv)
    (s : AgentState) (h : s.memLen < cfg.batchSize) :
    update cfg env s = s := by
  unfold update
  rw [if_neg (by omega)]

/-- Witness for C5 on an empty replay store. -/
theorem c5_update_noop_when_buffer_small_witness :
    stateEmpty.memLen < cfgTie.batchSize ∧ update cfgTie env0 stateEmpty = stateEmpty :=
  ⟨by decide, c5_update_noop_when_buffer_small cfgTie env0 stateEmpty (by decide)⟩

/-- `update_model` never touches `self.beta`. -/
theorem update_model_beta (cfg : AgentConfig) (env : UpdateEnv) (s : AgentState) :
    (update_model cfg env s).beta = s.beta := rfl

/-- Beta after one `update` call: the `max` step when the warm-up gate passes,
unchanged otherwise. -/
theorem update_beta (cfg : AgentConfig) (env : UpdateEnv) (s : AgentState) :
    (update cfg env s).beta =
      if cfg.batchSize ≤ s.memLen then
        max cfg.bufferBetaMin
          (s.beta - (cfg.bufferBetaMax - cfg.bufferBetaMin) * cfg.bufferBetaDecay)
      else s.beta := by
  unfold update
  split <;> rfl

/-- Starting from `beta = buffer_beta_min`, one `update` call leaves beta at
`buffer_beta_min` whenever the schedule's decrement is non-negative. -/
theorem update_beta_min_fixed (cfg : AgentConfig) (env : UpdateEnv) (s : AgentState)
    (hmm : cfg.bufferBetaMin ≤ cfg.bufferBetaMax) (hd : 0 ≤ cfg.bufferBetaDecay)
    (hbeta : s.beta = cfg.bufferBetaMin) :
    (update cfg env s).beta = cfg.bufferBetaMin := by
  rw [update_beta]
  split
  · rw [hbeta]
    have hstep : 0 ≤ (cfg.bufferBetaMax - cfg.bufferBetaMin) * cfg.bufferBetaDecay :=
      mul_nonneg (by linarith) hd
    exact max_eq_left (by linarith)
  · exact hbeta

/-- Beta stays at `buffer_beta_min` across any sequence of `update` calls. -/
theorem updateSeq_beta_min_fixed (cfg : AgentConfig) (envs : List UpdateEnv)
    (s : AgentState)
    (hmm : cfg.bufferBetaMin ≤ cfg.bufferBetaMax) (hd : 0 ≤ cfg.bufferBetaDecay)
    (hbeta : s.beta = cfg.bufferBetaMin) :
    (updateSeq cfg envs s).beta = cfg.bufferBetaMin := by
  induction envs generalizing s with
  | nil => exact hbeta
  | cons env rest ih =>
      exact ih (update cfg env s) (update_beta_min_fixed cfg env s hmm hd hbeta)

/-- A freshly constructed agent has `beta = buffer_beta_min` (source line 38). -/
theorem initAgent_beta (cfg : AgentConfig) (policy : PolicySpec) (s0 : AgentState)
    (hinit : initAgent cfg policy = Except.ok s0) :
    s0.beta = cfg.bufferBetaMin := by
  unfold initAgent at hinit
  split at hinit
  · cases hinit
    rfl
  · cases hinit

/-- Claim C4: for every sequence of `update()` calls on an agent constructed
with `buffer_beta_min ≤ buffer_beta_max` and `buffer_beta_decay ≥ 0`, the
`beta` field never exceeds `buffer_beta_max` and never drops below
`buffer_beta_min`. -/
theorem c4_beta_bounded (cfg : AgentConfig) (policy : PolicySpec)
    (s0 : AgentState) (envs : List UpdateEnv)
    (hmm : cfg.bufferBetaMin ≤ cfg.bufferBetaMax) (hd : 0 ≤ cfg.bufferBetaDecay)
    (hinit : initAgent cfg policy = Except.ok s0) :
    cfg.bufferBetaMin ≤ (updateSeq cfg envs s0).beta ∧
      (updateSeq cfg envs s0).beta ≤ cfg.bufferBetaMax := by
  have hconst : (updateSeq cfg envs s0).beta = cfg.bufferBetaMin :=
    updateSeq_beta_min_fixed cfg envs s0 hmm hd (initAgent_beta cfg policy s0 hinit)
  rw [hconst]
  exact ⟨le_refl _, hmm⟩

/-- Witness for C4 at the default-like configuration, one `update` call. -/
theorem c4_beta_bounded_witness :
    cfgTie.bufferBetaMin ≤ (updateSeq cfgTie [env0] stateInit).beta ∧
      (updateSeq cfgTie [env0] stateInit).beta ≤ cfgTie.bufferBetaMax :=
  c4_beta_bounded cfgTie policyDist stateInit [env0]
    (by norm_num [cfgTie]) (by norm_num [cfgTie]) rfl

/-- Claim C10: because `beta` starts at `buffer_beta_min` and every `update()`
sets it to `max(buffer_beta_min, beta - (buffer_beta_max - buffer_beta_min) *
buffer_beta_decay)`, with `buffer_beta_max ≥ buffer_beta_min` and
`buffer_beta_decay ≥ 0` the annealing schedule never changes beta: it equals
`buffer_beta_min` after every sequence of `update()` calls. -/
theorem c10_beta_constant (cfg : AgentConfig) (policy : PolicySpec)
    (s0 : AgentState) (envs : List UpdateEnv)
    (hmm : cfg.bufferBetaMin ≤ cfg.bufferBetaMax) (hd : 0 ≤ cfg.bufferBetaDecay)
    (hinit : initAgent cfg policy = Except.ok s0) :
    (updateSeq cfg envs s0).beta = cfg.bufferBetaMin :=
  updateSeq_beta_min_fixed cfg envs s0 hmm hd (initAgent_beta cfg policy s0 hinit)

/-- Witness for C10: two `update` calls leave beta at `buffer_beta_min`. -/
theorem c10_beta_constant_witness :
    (updateSeq cfgTie [env0, env0] stateInit).beta = cfgTie.bufferBetaMin :=
  c10_beta_constant cfgTie policyDist stateInit [env0, env0]
    (by norm_num [cfgTie]) (by norm_num [cfgTie]) rfl

/-- One cons step of `_target_update` over the zipped parameter lists. -/
theorem target_update_cons (tau y x : ℚ) (o' t : List ℚ) :
    target_update tau (y :: o') (x :: t)
      = (x * (1 - tau) + y * tau) :: target_update tau o' t := rfl

/-- With `tau = 0`, `_target_update` leaves every target parameter unchanged. -/
theorem target_update_zero (o t : List ℚ) : target_update 0 o t = t := by
  induction t generalizing o with
  | nil => simp [target_update]
  | cons x t ih =>
      cases o with
      | nil => rfl
      | cons y o' =>
          rw [target_update_cons, ih]
          norm_num

/-- With `tau = 1` and matching parameter counts, `_target_update` copies the
online parameters. -/
theorem target_update_one (o t : List ℚ) (h : o.length = t.length) :
    target_update 1 o t = o := by
  induction t generalizing o with
  | nil =>
      cases o with
      | nil => rfl
      | cons y o' => simp at h
  | cons x t ih =>
      cases o with
      | nil => simp at h
      | cons y o' =>
          rw [target_update_cons, ih o' (by simpa using h)]
          norm_num

/-- Claim C6: when the warm-up gate passes, `update()` applies the soft update
`target <- target * (1 - tau) + online * tau` to the parameter pairs exactly
once (after the gradient step, with the post-step online parameters); with
`tau = 0` every target parameter is unchanged and with `tau = 1` every target
parameter becomes identical to the corresponding online parameter. -/
theorem c6_soft_target_update (cfg : AgentConfig) (env : UpdateEnv)
    (s : AgentState) (o t : List ℚ)
    (hgate : cfg.batchSize ≤ s.memLen) (hlen : o.length = t.length) :
    (update cfg env s).targetParams
        = target_update cfg.tau (env.gradStep s.onlineParams) s.targetParams ∧
      target_update 0 o t = t ∧
      target_update 1 o t = o := by
  refine ⟨?_, target_update_zero o t, target_update_one o t hlen⟩
  unfold update
  rw [if_pos hgate]
  rfl

/-- Witness for C6 at concrete parameter lists and a full buffer. -/
theorem c6_soft_target_update_witness :
    (update cfgTie env0 stateFull).targetParams
        = target_update cfgTie.tau (env0.gradStep stateFull.onlineParams)
            stateFull.targetParams ∧
      target_update 0 [1, 2] [3, 4] = [3, 4] ∧
      target_update 1 [1, 2] [3, 4] = [1, 2] :=
  c6_soft_target_update cfgTie env0 stateFull [1, 2] [3, 4] (by decide) rfl

/-- `update_priorities` leaves slots outside the written index list alone. -/
theorem updatePriorities_not_mem (prios : List ℚ) (indices : List ℕ)
    (vals : ℕ → ℚ) (j : ℕ) (hj : j ∉ indices) :
    (updatePriorities prios indices vals).get? j = prios.get? j := by
  induction indices generalizing prios vals with
  | nil => rfl
  | cons idx rest ih =>
      simp only [List.mem_cons, not_or] at hj
      rw [updatePriorities, ih _ _ hj.2]
      exact List.get?_set_ne _ _ (fun h => hj.1 h.symm)

/-- With distinct indices, the value written at position `k` of the index
list survives to the final priority array. -/
theorem updatePriorities_get (prios : List ℚ) (indices : List ℕ)
    (vals : ℕ → ℚ) (hnd : indices.Nodup) (k : ℕ) (hk : k < indices.length)
    (hlt : indices.get ⟨k, hk⟩ < prios.length) :
    (updatePriorities prios indices vals).get? (indices.get ⟨k, hk⟩)
      = some (vals k) := by
  induction indices generalizing prios vals k with
  | nil => exact absurd hk (Nat.not_lt_zero k)
  | cons idx rest ih =>
      cases k with
      | zero =>
          have hnotmem : idx ∉ rest := (List.nodup_cons.mp hnd).1
          have hlt' : idx < prios.length := hlt
          show (updatePriorities prios (idx :: rest) vals).get? idx = some (vals 0)
          rw [updatePriorities, updatePriorities_not_mem _ _ _ _ hnotmem]
          exact List.get?_set_eq_of_lt _ hlt'
      | succ k' =>
          have hk' : k' < rest.length := Nat.lt_of_succ_lt_succ hk
          show (updatePriorities prios (idx :: rest) vals).get? (rest.get ⟨k', hk'⟩)
            = some (vals (k' + 1))
          rw [updatePriorities]
          exact ih (prios.set idx (vals 0)) (fun k => vals (k + 1))
            (List.nodup_cons.mp hnd).2 k' hk'
            (by simp only [List.length_set]; exact hlt)

/-- Claim C7: after an `update_model` call, the priority written back at each
sampled index equals that sample's `elementwise_loss + prior_eps`, and is
strictly positive whenever `prior_eps > 0` and the elementwise loss is
non-negative. -/
theorem c7_priorities_positive (cfg : AgentConfig) (env : UpdateEnv)
    (s : AgentState) (hnd : env.indices.Nodup) (heps : 0 < cfg.priorEps)
    (hloss : ∀ k, 0 ≤ elementwiseTotal cfg env k)
    (k : ℕ) (hk : k < env.indices.length)
    (hlt : env.indices.get ⟨k, hk⟩ < s.priorities.length) :
    (update_model cfg env s).priorities.get? (env.indices.get ⟨k, hk⟩)
        = some (elementwiseTotal cfg env k + cfg.priorEps) ∧
      0 < elementwiseTotal cfg env k + cfg.priorEps := by
  constructor
  · exact updatePriorities_get s.priorities env.indices _ hnd k hk hlt
  · have := hloss k
    linarith

/-- The zero-`log` environment produces zero elementwise losses. -/
theorem elementwiseTotal_env0 (k : ℕ) : elementwiseTotal cfgTie env0 k = 0 := by
  simp [elementwiseTotal, compute_dqn_loss, env0]

/-- Witness for C7 at a concrete one-element buffer. -/
theorem c7_priorities_positive_witness :
    (update_model cfgTie env0 stateFull).priorities.get?
        (env0.indices.get ⟨0, by decide⟩)
        = some (elementwiseTotal cfgTie env0 0 + cfgTie.priorEps) ∧
      0 < elementwiseTotal cfgTie env0 0 + cfgTie.priorEps :=
  c7_priorities_positive cfgTie env0 stateFull (by decide)
    (by norm_num [cfgTie]) (fun k => le_of_eq (elementwiseTotal_env0 k).symm)
    0 (by decide) (by decide)

/-! ### The loss combination of `update_model` (claim C3) -/

/-- Configuration for the broadcasting scenario: batch of 2, two atoms on `[0, 1]`. -/
def cfgBroad : AgentConfig :=
  { memorySize := 2000, batchSize := 2, gamma := 1, tau := 1/100,
    bufferAlpha := 3/5, bufferBetaMin := 1/10, bufferBetaMax := 9/10,
    bufferBetaDecay := 1/2000, priorEps := 1/1000000, atomSize := 2,
    nStep := 1, vMin := 0, vMax := 1 }

/-- First batch of the broadcasting scenario: both samples have reward `1/2`
and done 1, the selected next distribution is concentrated at atom 0 (so the
projection splits it evenly between the two grid points), and the online
distribution evaluates to 0 for sample 0 and to -1 for sample 1. -/
def batchBroad1 : Batch :=
  { obsQ := fun _ _ => 0,
    nextDistAll := fun _ _ j => if j = 0 then 1 else 0,
    dist := fun i _ _ => if i = 0 then 0 else -1,
    acts := fun _ => 0, rews := fun _ => 1/2, dones := fun _ => 1,
    numActions := 1 }

/-- Second batch of the broadcasting scenario: same transitions, but the
online distribution evaluates to 0 everywhere, so its elementwise loss
vanishes under the identity `log` model. -/
def batchBroad2 : Batch :=
  { batchBroad1 with dist := fun _ _ _ => 0 }

/-- Environment of the broadcasting scenario: importance weights `[1, 0]` and
the identity as `log` model, so the total elementwise losses are `[0, 1]`. -/
def envBroad : UpdateEnv :=
  { batch1 := batchBroad1, weights := fun i => if i = 0 then 1 else 0,
    indices := [0, 1], batch2 := batchBroad2, log := fun x => x,
    gradStep := fun ps => ps }

/-- Claim C3 counterexample: with total elementwise losses `[0, 1]` and
importance weights `[1, 0]`, the scalar loss of `update_model` is `1/4`
(the mean of the broadcast `(2, 2)` product of the `(2,)` loss vector with
the `(2, 1)` weight column), while the importance-weight-multiplied mean the
claim describes is `0`. -/
theorem c3_loss_not_weighted_mean :
    updateModelLoss cfgBroad envBroad = 1/4 ∧
      (∑ i ∈ Finset.range 2,
          envBroad.weights i * elementwiseTotal cfgBroad envBroad i) / 2 = 0 := by
  have hcl : ⌈(1:ℚ)/2⌉ = (1:ℤ) := by
    rw [Int.ceil_eq_iff]
    norm_num
  constructor
  · simp only [updateModelLoss, elementwiseTotal, compute_dqn_loss, nextDistSel,
      argmaxIdx, projDist, projFlat, lAt, uAt, bAt, tzAt, clampQ, supportAt,
      deltaZ, cfgBroad, envBroad, batchBroad1, batchBroad2, List.range_succ,
      List.range_zero, List.nil_append, List.foldl_cons, List.foldl_nil,
      Finset.sum_range_succ, Finset.sum_range_zero]
    norm_num
    simp only [hcl]
    norm_num
  · simp only [updateModelLoss, elementwiseTotal, compute_dqn_loss, nextDistSel,
      argmaxIdx, projDist, projFlat, lAt, uAt, bAt, tzAt, clampQ, supportAt,
      deltaZ, cfgBroad, envBroad, batchBroad1, batchBroad2, List.range_succ,
      List.range_zero, List.nil_append, List.foldl_cons, List.foldl_nil,
      Finset.sum_range_succ, Finset.sum_range_zero]
    norm_num

/-- Claim C3 (amended): `update_model` computes the 1-step elementwise loss at
discount `gamma` on the batch sampled from the prioritized store, a second
elementwise loss at discount `gamma ^ n_step` on the batch re-fetched from the
n-step store at the same indices, and sums them elementwise; but because
`elementwise_loss` has shape `(batch,)` while the importance weights are
reshaped to `(batch, 1)`, the backpropagated scalar
`torch.mean(elementwise_loss * weights)` is the mean of the broadcast
`(batch, batch)` outer product — the product of the mean importance weight and
the mean summed elementwise loss — not the per-sample importance-weighted
mean.  The scalar is also accumulated into `loss_per_batch`. -/
theorem c3_update_model_loss_structure (cfg : AgentConfig) (env : UpdateEnv)
    (s : AgentState) :
    updateModelLoss cfg env =
        ((∑ i ∈ Finset.range cfg.batchSize, env.weights i) / (cfg.batchSize : ℚ))
          * ((∑ j ∈ Finset.range cfg.batchSize,
              (compute_dqn_loss cfg env.log cfg.gamma env.batch1 j
                + compute_dqn_loss cfg env.log (cfg.gamma ^ cfg.nStep) env.batch2 j))
            / (cfg.batchSize : ℚ)) ∧
      (update_model cfg env s).lossPerBatch
        = s.lossPerBatch + updateModelLoss cfg env := by
  constructor
  · rw [div_mul_div_comm, Finset.sum_mul_sum]
    unfold updateModelLoss elementwiseTotal
    congr 1
    exact Finset.sum_congr rfl fun i _ => Finset.sum_congr rfl fun j _ => mul_comm _ _
  · rfl

/-! ### `metrics` gating (claim C8) -/

/-- A `torch.std` model that returns 0. -/
def stdZero : List ℚ → ℚ := fun _ => 0

/-- A named parameter tensor with values `[2, 4]` and gradient `[0, 0]`. -/
def paramW : ParamInfo := { pname := "w", values := [2, 4], grad := some [0, 0] }

/-- An agent state with accumulated loss 5 over 1 gradient step. -/
def stateAcc : AgentState :=
  { beta := 1/10, memLen := 0, priorities := [], onlineParams := [],
    targetParams := [], lossPerBatch := 5, episodeStep := 1,
    onlineNoiseResets := 0, targetNoiseResets := 0 }

/-- Claim C8 counterexample: at episode 10 (divisible by 10) `metrics` returns
nothing, while at episode 7 it returns a snapshot — the opposite of the
claimed gating; moreover the returned `w_mean` entry is 3, the mean of the
parameter values `[2, 4]`, not the mean 0 of the gradient `[0, 0]`. -/
theorem c8_metrics_gate_inverted :
    (metrics stdZero [paramW] stateAcc 10).1 = none ∧
      (metrics stdZero [paramW] stateAcc 7).1
        = some (5, [("w_std", 0), ("w_mean", 3)]) := by
  constructor
  · rfl
  · norm_num [metrics, metricsGrads, stdEntry, listMean, stdZero, paramW,
      stateAcc, List.sum_cons, List.sum_nil]
    exact ⟨rfl, rfl⟩

/-- Claim C8 (amended): `metrics(episode_num)` returns a snapshot exactly on
episodes NOT divisible by 10, containing the mean loss per gradient step
since the last snapshot (0 when no step was taken) and, for each named
parameter tensor with a non-`None` gradient, the mean and standard deviation
of the parameter tensor itself (not of its gradient); it resets the running
loss/step accumulators after each report and returns nothing (leaving the
accumulators untouched) on episodes divisible by 10. -/
theorem c8_metrics_behavior (stdFn : List ℚ → ℚ) (params : List ParamInfo)
    (s : AgentState) (ep1 ep2 : ℕ) (p : ParamInfo) (rest : List ParamInfo)
    (h1 : ep1 % 10 = 0) (h2 : ep2 % 10 ≠ 0) (hp : p.grad.isSome = true) :
    metrics stdFn params s ep1 = (none, s) ∧
      metrics stdFn params s ep2
        = (some ((if s.episodeStep ≠ 0
              then s.lossPerBatch / (s.episodeStep : ℚ) else 0),
            metricsGrads stdFn params),
          { s with lossPerBatch := 0, episodeStep := 0 }) ∧
      metricsGrads stdFn (p :: rest)
        = (p.pname ++ "_std", stdEntry stdFn p)
          :: (p.pname ++ "_mean", listMean p.values)
          :: metricsGrads stdFn rest := by
  refine ⟨?_, ?_, ?_⟩
  · simp [metrics, h1]
  · simp [metrics, h2]
  · simp [metricsGrads, hp]

/-- Witness for the amended C8 at episodes 10 and 7 with one parameter. -/
theorem c8_metrics_behavior_witness :
    metrics stdZero [paramW] stateAcc 10 = (none, stateAcc) ∧
      metrics stdZero [paramW] stateAcc 7
        = (some ((if stateAcc.episodeStep ≠ 0
              then stateAcc.lossPerBatch / (stateAcc.episodeStep : ℚ) else 0),
            metricsGrads stdZero [paramW]),
          { stateAcc with lossPerBatch := 0, episodeStep := 0 }) ∧
      metricsGrads stdZero (paramW :: [])
        = (paramW.pname ++ "_std", stdEntry stdZero paramW)
          :: (paramW.pname ++ "_mean", listMean paramW.values)
          :: metricsGrads stdZero [] :=
  c8_metrics_behavior stdZero [paramW] stateAcc 10 7 paramW [] rfl
    (by decide) rfl

end RainbowDqn
